import Mathlib

/-
Verification development for the llm-docking-agent repository.

Shallow embedding of `app/tools/receptor_preparation.py` and
`app/tools/ligand_preparation.py`.  The filesystem is modelled as an
association list from paths to file data; external collaborators
(ProDy parsing/selection, the reduce2 hydrogen-addition tool, the
mk_prepare_receptor converter, rdkit/molscrub/meeko, the network) are
modelled as environment records whose fields describe the observable
behaviour of one invocation, exactly as the Python code consumes it.
Python floats are modelled as exact rationals; the 3-decimal textual
rendering of the box config and the HETATM rendering of the box
visualization are kept structural (`FileData.config`, `FileData.boxviz`:
one list entry per written record, in write order).  Logging via the
module logger is modelled only for the `prepare_receptor` body (the
lines the claims talk about); `tool_context` is modelled as absent
(the artifact-publishing branch is not taken).
-/

/-- Lines of a file content, Python-style `"\n".join` in reverse:
`joinLines` models `"\n".join(msg_lines)`. -/
def joinLines : List String → String
  | [] => ""
  | [l] => l
  | l :: l2 :: ls => l ++ "\n" ++ joinLines (l2 :: ls)

/-- `s.startswith(pre)`, over the character lists so that it evaluates
in the kernel. -/
def pyStartsWith (s pre : String) : Bool :=
  pre.data.isPrefixOf s.data

/-- Split a character list at every occurrence of a separator. -/
def splitOnChar (c : Char) : List Char → List (List Char)
  | [] => [[]]
  | x :: xs =>
    if x = c then [] :: splitOnChar c xs
    else
      match splitOnChar c xs with
      | [] => [[x]]
      | h :: t => (x :: h) :: t

/-- Split a string at a separator character (the Python line iteration
and the path splits below). -/
def pySplit (c : Char) (s : String) : List String :=
  (splitOnChar c s.data).map (fun l => ⟨l⟩)

/-- Model of `os.path.abspath` for the relative paths this program uses
(a leading `./` is collapsed, other dot segments do not occur here). -/
def abspath (cwd p : String) : String :=
  if pyStartsWith p "/" then p
  else cwd ++ "/" ++ (if pyStartsWith p "./" then p.drop 2 else p)

/-- Model of `os.path.basename`: the component after the last slash. -/
def basename (p : String) : String :=
  (pySplit '/' p).getLastD p

/-- Model of `os.path.dirname`: everything before the last slash, `""` if
there is none.  (The root-path edge case `dirname "/a" = "/"` is not
reproduced; the program only forms relative paths here.) -/
def dirname (p : String) : String :=
  let parts := pySplit '/' p
  if parts.length ≤ 1 then "" else String.intercalate "/" parts.dropLast

/-- Model of `os.path.splitext(p)[0]` for a path without slashes: drop the
last dot-suffix.  (Leading-dot hidden files do not occur here.) -/
def splitextRoot (p : String) : String :=
  let parts := pySplit '.' p
  if parts.length ≤ 1 then p else String.intercalate "." parts.dropLast

/-- Model of `os.path.join` as used here (second component relative). -/
def pathJoin (d f : String) : String :=
  if d = "" then f else d ++ "/" ++ f

/-- Python truthiness of an optional string (`None` and `""` are falsy). -/
def truthyS : Option String → Bool
  | none => false
  | some s => !s.isEmpty

/-- Python truthiness of an optional list (`None` and `[]` are falsy). -/
def truthyL : Option (List ℚ) → Bool
  | none => false
  | some l => !l.isEmpty

/-- Python f-string rendering of an `Optional[str]`. -/
def pyOptRepr : Option String → String
  | none => "None"
  | some s => s

/-- Rendering of a coordinate, mimicking Python float repr for the values
that occur (floats are modelled as exact rationals). -/
def qRepr (q : ℚ) : String :=
  q.num.repr ++ (if q.den = 1 then ".0" else "/" ++ q.den.repr)

/-- Python `str` of a list of floats, e.g. `[1.0, 2.0, 3.0]`. -/
def pyListRepr (l : List ℚ) : String :=
  "[" ++ String.intercalate ", " (l.map qRepr) ++ "]"

/-- `line.startswith("CRYST1")` over any line of the content
(the Python code iterates the file line by line). -/
def hasCryst1 (content : String) : Bool :=
  (pySplit '\n' content).any (fun l => pyStartsWith l "CRYST1")

/-- First line starting with `CRYST1`, without its newline (the Python
loop keeps the newline in the line and writes it back; the synthesis
below re-appends it). -/
def findCryst1 (content : String) : Option String :=
  (pySplit '\n' content).find? (fun l => pyStartsWith l "CRYST1")

/-- The dummy CRYST1 card written when the original has none. -/
def dummyCryst1 : String :=
  "CRYST1    1.000    1.000    1.000  90.00  90.00  90.00 P 1           1"

/-- An atom of a parsed structure: its 3-D coordinate (residue/chain
metadata is consumed only by the opaque ProDy selection language, which
the environment models as a function). -/
structure Atom where
  x : ℚ
  y : ℚ
  z : ℚ
deriving DecidableEq, Repr

/-- Model of `prody.calcCenter(...).tolist()`: the arithmetic mean of the
coordinates. -/
def calcCenter (l : List Atom) : List ℚ :=
  let n : ℚ := l.length
  [(l.map Atom.x).sum / n, (l.map Atom.y).sum / n, (l.map Atom.z).sum / n]

/-- Contents of a file on disk.  Text files carry their characters;
the box config and box visualization are kept structural: `config`
holds the six values written as `key = value` lines (3-decimal render),
`boxviz` holds one entry per HETATM point-marker record, in write
order. -/
inductive FileData where
  | text (s : String)
  | config (center size : List ℚ)
  | boxviz (corners : List (ℚ × ℚ × ℚ))
deriving DecidableEq, Repr

/-- `os.path.getsize` / length of the downloaded text (only text files
are ever in the download cache). -/
def fdSize : FileData → Nat
  | .text s => s.length
  | .config _ _ => 0
  | .boxviz _ => 0

/-- The filesystem: an association list from paths to file data. -/
abbrev FS := List (String × FileData)

/-- Look up a path. -/
def fsGet : FS → String → Option FileData
  | [], _ => none
  | (k, v) :: rest, p => if k = p then some v else fsGet rest p

/-- Delete a path (`os.unlink`, or the delete half of `shutil.move`). -/
def fsDel (fs : FS) (p : String) : FS :=
  fs.filter (fun kv => kv.1 != p)

/-- Whole-file write (`open(p, "w")` / `shutil.copy` target). -/
def fsSet (fs : FS) (p : String) (v : FileData) : FS :=
  (p, v) :: fsDel fs p

/-- Apply a list of writes in order (files created by an external tool). -/
def fsSetMany (fs : FS) (ws : List (String × FileData)) : FS :=
  ws.foldl (fun acc kv => fsSet acc kv.1 kv.2) fs

/-- Python exceptions raised by this code, by class. -/
inductive PyErr where
  | valueError (msg : String)
  | runtimeError (msg : String)
  | osError (msg : String)
deriving DecidableEq, Repr

/-- `str(e)`. -/
def pyMsg : PyErr → String
  | .valueError m => m
  | .runtimeError m => m
  | .osError m => m

/-- Observable outcome of one `subprocess.run` call: normal completion
with an exit code and stderr text, a `TimeoutExpired`, or another
exception (with its message). -/
inductive RunOutcome where
  | completed (rc : Int) (stderrOut : String)
  | timeout
  | exc (m : String)
deriving DecidableEq, Repr

/-- Environment of one `_run_reduce2` invocation: the three discovery
probes (`shutil.which("mmtbx.reduce2")`, `shutil.which("reduce2")`, the
`python -c "from mmtbx.command_line import reduce2"` probe, whose
`returncode` is `none` when the probe itself raises), the outcome of the
reduce2 subprocess, and the files the tool writes when it completes.
Exceptions inside the `try` block are modelled as occurring at the
subprocess call (`RunOutcome.exc`), the only operation there that can
fail in practice. -/
structure REnv where
  whichPrimary : Option String
  whichAlt : Option String
  probeRC : Option Int
  runResult : RunOutcome
  writes : List (String × FileData)

/-- Tool discovery of `_run_reduce2` (lines 46-66): primary name, then
alternate name, then the library-module probe. -/
def discoverReduce2 (r : REnv) : Option String :=
  match r.whichPrimary with
  | some p => some p
  | none =>
    match r.whichAlt with
    | some p => some p
    | none =>
      match r.probeRC with
      | some 0 => some "python -m mmtbx.command_line.reduce2"
      | _ => none

/-- CRYST1 extraction from the original PDB (lines 74-80): the first
CRYST1 line of the original file, when it exists and is a text file. -/
def reduceCryst1Line (fs : FS) (original_pdb : Option String) : Option String :=
  match original_pdb with
  | none => none
  | some op =>
    match fsGet fs op with
    | some (.text c) => findCryst1 c
    | _ => none

/-- Output discovery and move of `_run_reduce2` (lines 120-142), after the
tool completed with exit status 0: the expected output name is derived
from the input basename plus `FH.pdb`; three candidate locations are
probed in order; the first existing one is moved to the canonical output
name and the temporary input copy (when one was synthesized,
`temp_input ≠ input_pdb`) is unlinked; if no candidate exists the stage
fails. -/
def reduceFinish (fs2 : FS) (input_pdb temp_input output_pdb : String) : Bool × FS :=
  let reduce_output := splitextRoot (basename temp_input) ++ "FH.pdb"
  let candidates := [reduce_output,
                     pathJoin (dirname temp_input) reduce_output,
                     pathJoin (dirname input_pdb) reduce_output]
  match candidates.find? (fun c => (fsGet fs2 c).isSome) with
  | none => (false, fs2)
  | some found =>
    let moved := (fsGet fs2 found).getD (.text "")
    let fs3 := fsSet (fsDel fs2 found) output_pdb moved
    let fs4 := if temp_input != input_pdb && (fsGet fs3 temp_input).isSome
               then fsDel fs3 temp_input else fs3
    (true, fs4)

/-- Shallow embedding of `_run_reduce2(input_pdb, output_pdb, original_pdb)`
from `receptor_preparation.py`.  Returns the success flag and the final
filesystem.  The CRYST1 card is taken from the original PDB if present,
else a dummy card is synthesized; a temporary input copy
`input_pdb + ".reduce_input.pdb"` is created iff the input lacks a CRYST1
record; a timeout, another exception (modelled at the subprocess call)
or a non-zero exit status fails the stage; otherwise the output is
discovered and moved by `reduceFinish`. -/
def _run_reduce2 (renv : REnv) (fs : FS) (input_pdb output_pdb : String)
    (original_pdb : Option String) : Bool × FS :=
  match discoverReduce2 renv with
  | none => (false, fs)
  | some _ =>
    let cryst1_line := reduceCryst1Line fs original_pdb
    match fsGet fs input_pdb with
    | some (.text inContent) =>
      let has_cryst1 := hasCryst1 inContent
      let temp_input := if has_cryst1 then input_pdb else input_pdb ++ ".reduce_input.pdb"
      let fs1 :=
        if has_cryst1 then fs
        else fsSet fs temp_input (.text (cryst1_line.getD dummyCryst1 ++ "\n" ++ inContent))
      match renv.runResult with
      | .timeout => (false, fs1)
      | .exc _ => (false, fs1)
      | .completed rc _ =>
        let fs2 := fsSetMany fs1 renv.writes
        if rc ≠ 0 then (false, fs2)
        else reduceFinish fs2 input_pdb temp_input output_pdb
    | _ => (false, fs)

/-- Environment of one `prepare_receptor` invocation: the working
directory, the fresh name `tempfile.NamedTemporaryFile` hands out, the
ProDy collaborator (`parsePDB` on the file content, `select` returning
the matching atoms — ProDy returns `None` exactly when zero atoms
match, modelled as the empty list — and the `writePDB` serialization),
the `_run_reduce2` environment, the `shutil.which("mk_prepare_receptor")`
discovery result, and the behaviour of one converter run as a function
of the input file content and the box arguments put on its command
line: the subprocess outcome and the files it writes when it
completes. -/
structure Env where
  cwd : String
  tmpName : String
  parse : String → Option (List Atom)
  select : List Atom → String → List Atom
  serialize : List Atom → String
  reduce2 : REnv
  mkWhich : Option String
  mkRun : String → List ℚ → List ℚ → RunOutcome × List (String × FileData)

/-- Step 2 of `prepare_receptor` (lines 279-292): box-center resolution.
Explicit center first (Python truthiness: `None` and `[]` both skip this
branch), then the reference-selection centroid over the original parsed
atoms, then the receptor centroid. -/
def resolveCenter (env : Env) (atoms receptor : List Atom)
    (box_center : Option (List ℚ)) (box_reference : Option String) :
    Except PyErr (List ℚ) :=
  if truthyL box_center then
    let bc := box_center.getD []
    if bc.length ≠ 3 then
      .error (.valueError "box_center must have 3 elements [x, y, z]")
    else .ok bc
  else if truthyS box_reference then
    match env.select atoms (box_reference.getD "") with
    | [] => .error (.valueError ("Box reference selection '" ++ box_reference.getD "" ++ "' matched no atoms."))
    | a :: rest => .ok (calcCenter (a :: rest))
  else .ok (calcCenter receptor)

/-- The eight corner points written to the box visualization file
(lines 366-380): three nested loops over `[-1, 1]` for x, y, z, so the
write order is the natural binary enumeration of sign combinations with
x as the most significant axis. -/
def boxCorners (center size : List ℚ) : List (ℚ × ℚ × ℚ) :=
  let half := size.map (fun s => s / 2)
  let c0 := center.getD 0 0
  let c1 := center.getD 1 0
  let c2 := center.getD 2 0
  let h0 := half.getD 0 0
  let h1 := half.getD 1 0
  let h2 := half.getD 2 0
  ([-1, 1] : List ℚ).flatMap (fun sx =>
    ([-1, 1] : List ℚ).flatMap (fun sy =>
      ([-1, 1] : List ℚ).map (fun sz =>
        (c0 + sx * h0, c1 + sy * h1, c2 + sz * h2))))

/-- Step 5 of `prepare_receptor` (lines 310-351): the format-conversion
stage with its fallback.  Success is `returncode == 0` and the expected
output file exists (checked after the tool's writes land); a timeout or
any other exception is caught and counts as failure.  On failure the
stage falls back to `shutil.copy(pdb_for_pdbqt, output_pdbqt)` and logs
which degradation occurred (the wording depends on whether protonation
had succeeded).  Returns (success flag, filesystem, log lines). -/
def conversionWithFallback (env : Env) (fs : FS) (reduce2_success : Bool)
    (pdb_for_pdbqt output_pdbqt : String) (center size : List ℚ) :
    Bool × FS × List String :=
  let stage : Bool × FS × List String :=
    match env.mkWhich with
    | none => (false, fs, [])
    | some _ =>
      let logRun := "[prepare_receptor] Running mk_prepare_receptor on " ++ pdb_for_pdbqt
      let inContent :=
        match fsGet fs pdb_for_pdbqt with
        | some (.text c) => c
        | _ => ""
      match env.mkRun inContent center size with
      | (.completed rc stderrOut, writes) =>
        let fs2 := fsSetMany fs writes
        if rc = 0 ∧ (fsGet fs2 output_pdbqt).isSome then
          (true, fs2, [logRun, "[prepare_receptor] mk_prepare_receptor succeeded"])
        else
          (false, fs2, [logRun, "[prepare_receptor] mk_prepare_receptor failed: " ++ stderrOut])
      | (.timeout, _) => (false, fs, [logRun, "[prepare_receptor] mk_prepare_receptor error: timed out"])
      | (.exc m, _) => (false, fs, [logRun, "[prepare_receptor] mk_prepare_receptor error: " ++ m])
  match stage with
  | (true, fs2, log) => (true, fs2, log)
  | (false, fs2, log) =>
    let fs3 := fsSet fs2 output_pdbqt ((fsGet fs2 pdb_for_pdbqt).getD (.text ""))
    let fallbackLine :=
      if reduce2_success then
        "Created PDBQT from protonated structure. Note: Partial charges not assigned (mk_prepare_receptor not available)."
      else
        "Created basic PDBQT without hydrogens or partial charges. For production use, install cctbx (for reduce2) and meeko (for mk_prepare_receptor)."
    (false, fs3, log ++ [fallbackLine])

/-- Steps 3-6 of `prepare_receptor` (lines 294-402), after parsing,
selection and center resolution have succeeded: write the cleaned PDB,
run `_run_reduce2`, pick the structure for conversion, run the
conversion stage with fallback, write the box config and the box
visualization, and assemble the multi-line status message.  Returns
(message, filesystem, log lines). -/
def pipelineTail (env : Env) (fs : FS) (receptor : List Atom)
    (center : List ℚ) (output_name pdb_to_parse : String)
    (box_size : List ℚ) : String × FS × List String :=
  let clean_pdb := output_name ++ "_clean.pdb"
  let fs1 := fsSet fs clean_pdb (.text (env.serialize receptor))
  let protonated_pdb := output_name ++ "_protonated.pdb"
  let r2 := _run_reduce2 env.reduce2 fs1 clean_pdb protonated_pdb (some pdb_to_parse)
  let reduce2_success := r2.1
  let fs2 := r2.2
  let pdb_for_pdbqt := if reduce2_success then protonated_pdb else clean_pdb
  let output_pdbqt := output_name ++ ".pdbqt"
  let conv := conversionWithFallback env fs2 reduce2_success pdb_for_pdbqt output_pdbqt center box_size
  let fs4 := conv.2.1
  let log := conv.2.2
  let config_file := output_name ++ "_config.txt"
  let fs5 := fsSet fs4 config_file (.config center box_size)
  let box_file := output_name ++ ".box.pdb"
  let fs6 := fsSet fs5 box_file (.boxviz (boxCorners center box_size))
  let msg := joinLines
    (["Receptor prepared.",
      "Clean PDB: " ++ abspath env.cwd clean_pdb]
     ++ (if reduce2_success then
          ["Protonated PDB: " ++ abspath env.cwd protonated_pdb ++ " (hydrogens added with reduce2)"]
        else
          ["Protonation: Skipped (reduce2 not available)"])
     ++ ["PDBQT: " ++ abspath env.cwd output_pdbqt,
         "Box Config: " ++ abspath env.cwd config_file,
         "Box Visualization: " ++ abspath env.cwd box_file,
         "Box Center: " ++ pyListRepr center,
         "Box Size: " ++ pyListRepr box_size])
  (msg, fs6, log)

/-- Input resolution of `prepare_receptor` (lines 259-268): raw content,
when truthy, is written to the transient temp file and parsed from
there; otherwise the caller-supplied path is parsed. -/
def resolveInput (env : Env) (fs0 : FS) (input_pdb pdb_content : Option String) :
    String × FS :=
  if truthyS pdb_content then
    (env.tmpName, fsSet fs0 env.tmpName (.text (pdb_content.getD "")))
  else (input_pdb.getD "", fs0)

/-- The `try` body of `prepare_receptor` (lines 254-416): validation,
input resolution, parse, selection, center resolution, then the
pipeline tail. -/
def prepareBody (env : Env) (fs0 : FS) (output_name : String)
    (input_pdb pdb_content : Option String) (selection : String)
    (box_reference : Option String) (box_center : Option (List ℚ))
    (box_size : List ℚ) : Except PyErr String × FS × List String :=
  if !truthyS input_pdb && !truthyS pdb_content then
    (.error (.valueError "Must provide either 'input_pdb' (file path) or 'pdb_content' (string)."), fs0, [])
  else
    let ri := resolveInput env fs0 input_pdb pdb_content
    let pdb_to_parse := ri.1
    let fs := ri.2
    match fsGet fs pdb_to_parse with
    | some (.text content) =>
      match env.parse content with
      | none => (.error (.valueError ("Could not parse PDB file: " ++ pyOptRepr input_pdb)), fs, [])
      | some atoms =>
        match env.select atoms selection with
        | [] => (.error (.valueError ("Selection '" ++ selection ++ "' matched no atoms.")), fs, [])
        | a :: rest =>
          match resolveCenter env atoms (a :: rest) box_center box_reference with
          | .error e => (.error e, fs, [])
          | .ok center =>
            let t := pipelineTail env fs (a :: rest) center output_name pdb_to_parse box_size
            (.ok t.1, t.2.1, t.2.2)
    | _ => (.error (.osError ("No such file or directory: " ++ pdb_to_parse)), fs, [])

/-- Shallow embedding of `prepare_receptor` from `receptor_preparation.py`:
the `try` body, the `except Exception` clause wrapping any raised error
into `RuntimeError("Receptor preparation failed: " + str(e))`, and the
`finally` clause unlinking the transient temp file (created iff raw
content was truthy) when it exists.  Returns (result, filesystem, log
lines). -/
def prepare_receptor (env : Env) (fs0 : FS) (output_name : String)
    (input_pdb pdb_content : Option String) (selection : String)
    (box_reference : Option String) (box_center : Option (List ℚ))
    (box_size : List ℚ) : Except PyErr String × FS × List String :=
  let b := prepareBody env fs0 output_name input_pdb pdb_content selection
    box_reference box_center box_size
  let r :=
    match b.1 with
    | .ok m => Except.ok m
    | .error e => Except.error (.runtimeError ("Receptor preparation failed: " ++ pyMsg e))
  let fs :=
    if truthyS pdb_content then fsDel b.2.1 env.tmpName else b.2.1
  (r, fs, b.2.2)

/-- The dictionary `download_pdb` returns on success. -/
structure DlResult where
  pdb_id : String
  file_path : String
  file_size : Nat
  message : String
deriving DecidableEq, Repr

/-- Download state: the filesystem plus a counter of network fetches
performed (each `requests.get` call increments it). -/
structure DlState where
  fs : FS
  fetches : Nat
deriving Repr

/-- Python `str.lower` for the ASCII identifiers used here (defined over
the character list so that it evaluates in the kernel). -/
def pyLower (s : String) : String :=
  ⟨s.data.map (fun c => if 65 ≤ c.toNat ∧ c.toNat ≤ 90 then Char.ofNat (c.toNat + 32) else c)⟩

/-- Python `str.strip`: remove leading and trailing whitespace. -/
def pyStrip (s : String) : String :=
  ⟨((s.data.dropWhile Char.isWhitespace).reverse.dropWhile Char.isWhitespace).reverse⟩

/-- Shallow embedding of `download_pdb` from `receptor_preparation.py`.
`fetch` models one `requests.get` of the RCSB URL for the id: either the
body text or a `RequestException` message.  The id is lowercased and
trimmed; a non-4-character id raises `ValueError`; a file already at the
cache path `./pdb/<id>.pdb` is returned immediately without touching the
network; otherwise the body is fetched, written verbatim, and the path
and byte length are returned.  (`os.makedirs` of the cache directory is
not modelled; directories are implicit in the path map.) -/
def download_pdb (fetch : String → Except String String) (cwd : String)
    (st : DlState) (pdb_id0 : String) : Except PyErr DlResult × DlState :=
  let pdb_id := pyStrip (pyLower pdb_id0)
  if pdb_id.length ≠ 4 then
    (.error (.valueError ("Invalid PDB ID format: " ++ pdb_id ++ ". Must be 4 characters.")), st)
  else
    let file_path := "./pdb/" ++ pdb_id ++ ".pdb"
    let abs_path := abspath cwd file_path
    match fsGet st.fs file_path with
    | some d =>
      (.ok { pdb_id := pdb_id, file_path := abs_path, file_size := fdSize d,
             message := "PDB " ++ pdb_id ++ " already exists at " ++ file_path
               ++ " (skipped download). Use file_path='" ++ abs_path
               ++ "' in prepare_receptor." }, st)
    | none =>
      match fetch pdb_id with
      | .error e =>
        (.error (.runtimeError ("Failed to download PDB " ++ pdb_id ++ ": " ++ e)),
         { st with fetches := st.fetches + 1 })
      | .ok content =>
        (.ok { pdb_id := pdb_id, file_path := abs_path, file_size := content.length,
               message := "Successfully downloaded PDB " ++ pdb_id ++ " to " ++ file_path
                 ++ ". Use file_path='" ++ abs_path ++ "' in prepare_receptor." },
         { fs := fsSet st.fs file_path (.text content), fetches := st.fetches + 1 })

/-- Environment of one `prepare_ligand` invocation: the working
directory and the external collaborators — `Chem.MolFromSmiles` (a
molecule is an opaque token), the `molscrub.Scrub` enumeration applied
to the molecule with the pH window and skip flags, the meeko
`MoleculePreparation.prepare` setups, and
`PDBQTWriterLegacy.write_string` returning (pdbqt text, success flag,
error message). -/
structure LEnv where
  cwd : String
  molFromSmiles : String → Option String
  scrub : String → ℚ → Bool → Bool → List String
  prepare : String → List String
  writeString : String → String × Bool × String

/-- Shallow embedding of `prepare_ligand` from `ligand_preparation.py`
with `tool_context` absent (the artifact branch is not taken).  Each of
the two `try` blocks wraps any raised error into a `RuntimeError` with
its stage prefix; the first generated isomer and the first molecule
setup are taken; the PDBQT text is written to the output file; the
existence check after the second block is unwrapped. -/
def prepare_ligand (env : LEnv) (fs : FS) (smiles output_filename : String)
    (ph : ℚ) (skip_tautomer skip_acidbase : Bool) :
    Except PyErr String × FS :=
  match env.molFromSmiles smiles with
  | none =>
    (.error (.runtimeError ("Ligand preparation (molscrub) failed: Invalid SMILES string: " ++ smiles)), fs)
  | some input_mol =>
    match env.scrub input_mol ph skip_tautomer skip_acidbase with
    | [] =>
      (.error (.runtimeError "Ligand preparation (molscrub) failed: molscrub failed to generate any isomers."), fs)
    | ligand_mol :: _ =>
      match env.prepare ligand_mol with
      | [] =>
        (.error (.runtimeError "Ligand preparation (meeko) failed: meeko failed to prepare molecule setup."), fs)
      | molsetup :: _ =>
        let w := env.writeString molsetup
        let pdbqt_string := w.1
        let success := w.2.1
        let error_msg := w.2.2
        if !success then
          (.error (.runtimeError ("Ligand preparation (meeko) failed: meeko PDBQT writing failed: " ++ error_msg)), fs)
        else
          let fs1 := fsSet fs output_filename (.text pdbqt_string)
          if (fsGet fs1 output_filename).isSome then
            (.ok ("Ligand successfully prepared and saved to: " ++ abspath env.cwd output_filename), fs1)
          else
            (.error (.runtimeError ("Failed to generate output file: " ++ output_filename)), fs1)

/-- Left-biased choice on optional file data. -/
def optOr : Option FileData → Option FileData → Option FileData
  | some v, _ => some v
  | none, o => o

/-- The ways `_run_reduce2` can fail independently of the filesystem:
the tool is undiscoverable by any of the three probes, or the
subprocess times out, raises, or exits non-zero. -/
def reduce2AlwaysFails (r : REnv) : Prop :=
  discoverReduce2 r = none ∨ r.runResult = .timeout ∨
    (∃ m, r.runResult = .exc m) ∨
    (∃ rc serr, r.runResult = .completed rc serr ∧ rc ≠ 0)

/-- Concrete atoms for witness runs. -/
def atomsW : List Atom := [⟨1, 2, 3⟩, ⟨3, 4, 5⟩]

/-- Concrete reference-selection atoms for witness runs. -/
def refAtomsW : List Atom := [⟨4, 4, 4⟩]

/-- An environment in which reduce2 is undiscoverable by all three probes. -/
def reduce2Missing : REnv :=
  { whichPrimary := none, whichAlt := none, probeRC := none,
    runResult := .exc "not run", writes := [] }

/-- Concrete witness environment: both external tools absent. -/
def envW : Env :=
  { cwd := "/work"
  , tmpName := "/tmp/tmpw.pdb"
  , parse := fun c => if c = "PDBDATA" then some atomsW else none
  , select := fun l s =>
      if s = "chain A and not water and not hetero" then l
      else if s = "resname STI" then refAtomsW
      else []
  , serialize := fun _ => "CLEANPDB"
  , reduce2 := reduce2Missing
  , mkWhich := none
  , mkRun := fun _ _ _ => (.completed 1 "no tool", []) }

/-- Concrete environment whose converter is discovered but exits non-zero. -/
def envC2 : Env := { envW with mkWhich := some "/usr/bin/mk_prepare_receptor" }

/-- Concrete witness environment for the ligand pipeline. -/
def lenvW : LEnv :=
  { cwd := "/work"
  , molFromSmiles := fun s => if s = "CCO" then some "molCCO" else none
  , scrub := fun m _ _ _ => if m = "molCCO" then ["iso1"] else []
  , prepare := fun m => if m = "iso1" then ["setup1"] else []
  , writeString := fun m =>
      if m = "setup1" then ("PDBQT CONTENT", true, "") else ("", false, "bad") }

/-- A reduce2 environment that is discovered by the primary probe but
whose run exits non-zero. -/
def reduce2FoundFailing : REnv :=
  { whichPrimary := some "/usr/bin/mmtbx.reduce2", whichAlt := none, probeRC := none,
    runResult := .completed 1 "crash", writes := [] }

theorem fsGet_fsDel_same (fs : FS) (p : String) : fsGet (fsDel fs p) p = none := by
  induction fs with
  | nil => rfl
  | cons kv rest ih =>
    simp only [fsDel, List.filter_cons] at ih ⊢
    by_cases h : kv.1 = p
    · simp only [h, bne_self_eq_false, Bool.false_eq_true, if_false]
      exact ih
    · simp only [bne_iff_ne, ne_eq, h, not_false_eq_true, if_true, fsGet, if_neg h]
      exact ih

theorem fsGet_fsDel_ne (fs : FS) (p q : String) (h : q ≠ p) :
    fsGet (fsDel fs p) q = fsGet fs q := by
  induction fs with
  | nil => rfl
  | cons kv rest ih =>
    simp only [fsDel, List.filter_cons] at ih ⊢
    by_cases hk : kv.1 = p
    · simp only [hk, bne_self_eq_false, Bool.false_eq_true, if_false]
      rw [ih, show fsGet (kv :: rest) q = fsGet rest q by
        simp [fsGet, show ¬kv.1 = q by rw [hk]; exact fun e => h e.symm]]
    · simp only [bne_iff_ne, ne_eq, hk, not_false_eq_true, if_true]
      by_cases hq : kv.1 = q
      · simp [fsGet, hq]
      · simp only [fsGet, hq, if_false]
        exact ih

theorem fsGet_fsSet_same (fs : FS) (p : String) (v : FileData) :
    fsGet (fsSet fs p v) p = some v := by
  simp [fsSet, fsGet]

theorem fsGet_fsSet_ne (fs : FS) (p q : String) (v : FileData) (h : q ≠ p) :
    fsGet (fsSet fs p v) q = fsGet fs q := by
  simp only [fsSet, fsGet, show ¬p = q from fun e => h e.symm, if_false]
  exact fsGet_fsDel_ne fs p q h

theorem fsGet_fsSetMany_not_mem (ws : List (String × FileData)) (fs : FS) (p : String) :
    p ∉ ws.map Prod.fst → fsGet (fsSetMany fs ws) p = fsGet fs p := by
  induction ws generalizing fs with
  | nil => intro _; rfl
  | cons kv rest ih =>
    intro h
    simp only [List.map_cons, List.mem_cons, not_or] at h
    calc fsGet (fsSetMany fs (kv :: rest)) p
        = fsGet (fsSetMany (fsSet fs kv.1 kv.2) rest) p := rfl
      _ = fsGet (fsSet fs kv.1 kv.2) p := ih _ h.2
      _ = fsGet fs p := fsGet_fsSet_ne fs kv.1 p kv.2 h.1

theorem string_data_append (a b : String) : (a ++ b).data = a.data ++ b.data :=
  String.data_append a b

theorem string_append_right_inj {n a b : String} (h : n ++ a = n ++ b) : a = b := by
  apply String.ext
  have h2 : (n ++ a).data = (n ++ b).data := by rw [h]
  rw [string_data_append, string_data_append] at h2
  exact List.append_cancel_left h2

theorem string_append_ne_of_suffix_ne {n a b : String} (h : a ≠ b) : n ++ a ≠ n ++ b :=
  fun e => h (string_append_right_inj e)

theorem string_ne_append_self {s t : String} (h : t ≠ "") : s ++ t ≠ s := by
  intro e
  apply h
  apply String.ext
  have h2 : s.data ++ t.data = s.data ++ ([] : List Char) := by
    rw [← string_data_append, e]; simp
  simpa using List.append_cancel_left h2

theorem joinLines_infix {t : String} : ∀ {ls : List String}, t ∈ ls →
    t.data <:+: (joinLines ls).data := by
  intro ls
  induction ls with
  | nil => intro h; cases h
  | cons a rest ih =>
    intro h
    match rest, h with
    | [], h =>
      have : t = a := by simpa using h
      subst this
      exact List.infix_refl _
    | b :: rest', h =>
      rcases List.mem_cons.mp h with h1 | h2
      · subst h1
        refine ⟨[], ("\n" ++ joinLines (b :: rest')).data, ?_⟩
        simp [joinLines, string_data_append, List.append_assoc]
      · rcases ih h2 with ⟨s, u, hsu⟩
        refine ⟨(a ++ "\n").data ++ s, u, ?_⟩
        calc ((a ++ "\n").data ++ s) ++ t.data ++ u
            = (a ++ "\n").data ++ (s ++ t.data ++ u) := by
              simp [List.append_assoc]
          _ = (a ++ "\n").data ++ (joinLines (b :: rest')).data := by rw [hsu]
          _ = (joinLines (a :: b :: rest')).data := by
              simp [joinLines, string_data_append, List.append_assoc]

theorem string_append_assoc (a b c : String) : a ++ b ++ c = a ++ (b ++ c) := by
  apply String.ext
  simp [string_data_append, List.append_assoc]


theorem fsGet_fsSetMany (ws : List (String × FileData)) (fs : FS) (p : String) :
    fsGet (fsSetMany fs ws) p = optOr (fsGet (fsSetMany [] ws) p) (fsGet fs p) := by
  induction ws generalizing fs with
  | nil => rfl
  | cons kv rest ih =>
    have l1 : fsGet (fsSetMany fs (kv :: rest)) p
        = fsGet (fsSetMany (fsSet fs kv.1 kv.2) rest) p := rfl
    have l2 : fsGet (fsSetMany ([] : FS) (kv :: rest)) p
        = fsGet (fsSetMany (fsSet [] kv.1 kv.2) rest) p := rfl
    rw [l1, l2, ih (fsSet fs kv.1 kv.2), ih (fsSet [] kv.1 kv.2)]
    by_cases hw : fsGet (fsSetMany ([] : FS) rest) p = none
    · rw [hw]
      by_cases hk : p = kv.1
      · subst hk
        rw [fsGet_fsSet_same, fsGet_fsSet_same]
        rfl
      · rw [fsGet_fsSet_ne _ _ _ _ hk, fsGet_fsSet_ne _ _ _ _ hk]
        simp [fsGet, optOr]
    · rcases Option.ne_none_iff_exists'.mp hw with ⟨v, hv⟩
      rw [hv]
      rfl


theorem _run_reduce2_fail_frame (renv : REnv) (fs : FS) (i o : String)
    (g : Option String) (p : String)
    (hfail : reduce2AlwaysFails renv)
    (hw : p ∉ renv.writes.map Prod.fst)
    (hp : p ≠ i ++ ".reduce_input.pdb") :
    (_run_reduce2 renv fs i o g).1 = false ∧
    fsGet (_run_reduce2 renv fs i o g).2 p = fsGet fs p := by
  rcases hfail0 : discoverReduce2 renv with _ | dpath
  · constructor <;> simp [_run_reduce2, hfail0]
  · rcases hget : fsGet fs i with _ | fd
    · constructor <;> simp [_run_reduce2, hfail0, hget]
    · cases fd with
      | config c sz => constructor <;> simp [_run_reduce2, hfail0, hget]
      | boxviz cs => constructor <;> simp [_run_reduce2, hfail0, hget]
      | text s =>
        rcases hrun : renv.runResult with ⟨rc, serr⟩ | _ | m
        · have hrc : rc ≠ 0 := by
            rcases hfail with h | h | ⟨m', h⟩ | ⟨rc', serr', h, hne⟩
            · rw [hfail0] at h; exact Option.noConfusion h
            · rw [hrun] at h; exact RunOutcome.noConfusion h
            · rw [hrun] at h; exact RunOutcome.noConfusion h
            · rw [hrun] at h
              injection h with h1 h2
              subst h1
              exact hne
          by_cases hc : hasCryst1 s
          · constructor
            · simp [_run_reduce2, hfail0, hget, hrun, hrc, hc]
            · simp only [_run_reduce2, hfail0, hget, hrun, hc, if_true, ne_eq, hrc,
                not_false_eq_true, if_pos]
              rw [fsGet_fsSetMany_not_mem _ _ _ hw]
          · constructor
            · simp [_run_reduce2, hfail0, hget, hrun, hrc, hc]
            · simp only [_run_reduce2, hfail0, hget, hrun, hc, ne_eq, hrc,
                not_false_eq_true, if_pos]
              rw [fsGet_fsSetMany_not_mem _ _ _ hw]
              simp only [hc, if_false, Bool.false_eq_true]
              exact fsGet_fsSet_ne _ _ _ _ hp
        · by_cases hc : hasCryst1 s
          · constructor <;> simp [_run_reduce2, hfail0, hget, hrun, hc]
          · constructor
            · simp [_run_reduce2, hfail0, hget, hrun, hc]
            · simp only [_run_reduce2, hfail0, hget, hrun, hc, if_false, Bool.false_eq_true]
              exact fsGet_fsSet_ne _ _ _ _ hp
        · by_cases hc : hasCryst1 s
          · constructor <;> simp [_run_reduce2, hfail0, hget, hrun, hc]
          · constructor
            · simp [_run_reduce2, hfail0, hget, hrun, hc]
            · simp only [_run_reduce2, hfail0, hget, hrun, hc, if_false, Bool.false_eq_true]
              exact fsGet_fsSet_ne _ _ _ _ hp


/-- Claim C8: for every `prepare_receptor` call that supplies raw structure
content (`pdb_content` truthy), the transient file created to hold that
content is absent from the filesystem on every exit path, success or
error: the `finally` clause unlinks it unconditionally. -/
theorem claim_C8_temp_file_deleted (env : Env) (fs0 : FS) (output_name : String)
    (input_pdb pdb_content : Option String) (selection : String)
    (box_reference : Option String) (box_center : Option (List ℚ))
    (box_size : List ℚ) (h : truthyS pdb_content = true) :
    fsGet (prepare_receptor env fs0 output_name input_pdb pdb_content selection
      box_reference box_center box_size).2.1 env.tmpName = none := by
  simp only [prepare_receptor, h, if_true]
  exact fsGet_fsDel_same _ _

/-- Witness for C8: a concrete raw-content run. -/
theorem claim_C8_witness :
    truthyS (some "PDBDATA") = true ∧
    fsGet (prepare_receptor envW [] "rec" none (some "PDBDATA")
      "chain A and not water and not hetero" none none [20, 20, 20]).2.1 envW.tmpName = none :=
  ⟨rfl, claim_C8_temp_file_deleted envW [] "rec" none (some "PDBDATA")
    "chain A and not water and not hetero" none none [20, 20, 20] rfl⟩

/-- Claim C5: for every center and size the box visualization consists of
exactly the 8 axis-aligned corner points center ± half-size (one point
record per corner), ordered by the natural binary enumeration of sign
combinations over (x, y, z) with x most significant; for center=(0,0,0)
and size=(2,2,2) the 8 points are exactly (±1,±1,±1); and a
`prepare_receptor` run writes exactly these corners to the `.box.pdb`
file. -/
theorem claim_C5_box_corners :
    (∀ c0 c1 c2 s0 s1 s2 : ℚ, boxCorners [c0, c1, c2] [s0, s1, s2] =
      [(c0 - s0/2, c1 - s1/2, c2 - s2/2),
       (c0 - s0/2, c1 - s1/2, c2 + s2/2),
       (c0 - s0/2, c1 + s1/2, c2 - s2/2),
       (c0 - s0/2, c1 + s1/2, c2 + s2/2),
       (c0 + s0/2, c1 - s1/2, c2 - s2/2),
       (c0 + s0/2, c1 - s1/2, c2 + s2/2),
       (c0 + s0/2, c1 + s1/2, c2 - s2/2),
       (c0 + s0/2, c1 + s1/2, c2 + s2/2)]) ∧
    boxCorners [0, 0, 0] [2, 2, 2] =
      [(-1, -1, -1), (-1, -1, 1), (-1, 1, -1), (-1, 1, 1),
       (1, -1, -1), (1, -1, 1), (1, 1, -1), (1, 1, 1)] ∧
    (∃ m fsFinal logv,
      prepare_receptor envW [("in.pdb", FileData.text "PDBDATA")] "rec" (some "in.pdb") none
        "chain A and not water and not hetero" none (some [0, 0, 0]) [2, 2, 2]
        = (Except.ok m, fsFinal, logv) ∧
      fsGet fsFinal "rec.box.pdb" = some (.boxviz (boxCorners [0, 0, 0] [2, 2, 2]))) := by
  have h1 : ∀ c0 c1 c2 s0 s1 s2 : ℚ, boxCorners [c0, c1, c2] [s0, s1, s2] =
      [(c0 - s0/2, c1 - s1/2, c2 - s2/2),
       (c0 - s0/2, c1 - s1/2, c2 + s2/2),
       (c0 - s0/2, c1 + s1/2, c2 - s2/2),
       (c0 - s0/2, c1 + s1/2, c2 + s2/2),
       (c0 + s0/2, c1 - s1/2, c2 - s2/2),
       (c0 + s0/2, c1 - s1/2, c2 + s2/2),
       (c0 + s0/2, c1 + s1/2, c2 - s2/2),
       (c0 + s0/2, c1 + s1/2, c2 + s2/2)] := by
    intro c0 c1 c2 s0 s1 s2
    simp only [boxCorners, List.map_cons, List.map_nil, List.getD, List.get?,
      List.flatMap_cons, List.flatMap_nil, List.append_nil, List.cons_append,
      List.nil_append, Option.getD_some]
    norm_num
    constructor <;> ring_nf <;> norm_num
  refine ⟨h1, ?_, ⟨_, _, _, rfl, rfl⟩⟩
  rw [h1 0 0 0 2 2 2]
  norm_num

/-- Claim C9: every successful `prepare_ligand` run writes a non-empty
docking-format output file and returns a status string containing the
absolute path of that file.  The success conditions (valid SMILES, at
least one isomer, at least one setup, writer success with non-empty
text) are the environment hypotheses. -/
theorem claim_C9_ligand_success (env : LEnv) (fs : FS) (smiles output_filename : String)
    (ph : ℚ) (skt ska : Bool) (mol iso setup s err : String)
    (isoRest setups : List String)
    (hmol : env.molFromSmiles smiles = some mol)
    (hscrub : env.scrub mol ph skt ska = iso :: isoRest)
    (hprep : env.prepare iso = setup :: setups)
    (hwrite : env.writeString setup = (s, true, err))
    (hne : s ≠ "") :
    (prepare_ligand env fs smiles output_filename ph skt ska).1
      = .ok ("Ligand successfully prepared and saved to: " ++ abspath env.cwd output_filename) ∧
    fsGet (prepare_ligand env fs smiles output_filename ph skt ska).2 output_filename
      = some (.text s) ∧
    s ≠ "" ∧
    (abspath env.cwd output_filename).data <:+:
      ("Ligand successfully prepared and saved to: " ++ abspath env.cwd output_filename).data := by
  have hrun : prepare_ligand env fs smiles output_filename ph skt ska =
      (.ok ("Ligand successfully prepared and saved to: " ++ abspath env.cwd output_filename),
       fsSet fs output_filename (.text s)) := by
    simp only [prepare_ligand, hmol, hscrub, hprep, hwrite, Bool.not_true, Bool.false_eq_true,
      if_false, fsGet_fsSet_same, Option.isSome_some, if_true]
  refine ⟨by rw [hrun], by rw [hrun]; exact fsGet_fsSet_same _ _ _, hne, ?_⟩
  exact ⟨("Ligand successfully prepared and saved to: ").data, [],
    by simp [string_data_append]⟩


/-- Witness for C9: SMILES "CCO" at pH 7.0 with the default flags. -/
theorem claim_C9_witness :
    lenvW.molFromSmiles "CCO" = some "molCCO" ∧
    lenvW.scrub "molCCO" 7 true false = ["iso1"] ∧
    lenvW.prepare "iso1" = ["setup1"] ∧
    lenvW.writeString "setup1" = ("PDBQT CONTENT", true, "") ∧
    "PDBQT CONTENT" ≠ "" ∧
    ((prepare_ligand lenvW [] "CCO" "ligand.pdbqt" 7 true false).1
      = .ok ("Ligand successfully prepared and saved to: " ++ abspath lenvW.cwd "ligand.pdbqt") ∧
    fsGet (prepare_ligand lenvW [] "CCO" "ligand.pdbqt" 7 true false).2 "ligand.pdbqt"
      = some (.text "PDBQT CONTENT") ∧
    "PDBQT CONTENT" ≠ "" ∧
    (abspath lenvW.cwd "ligand.pdbqt").data <:+:
      ("Ligand successfully prepared and saved to: " ++ abspath lenvW.cwd "ligand.pdbqt").data) :=
  ⟨rfl, rfl, rfl, rfl, by decide,
    claim_C9_ligand_success lenvW [] "CCO" "ligand.pdbqt" 7 true false
      "molCCO" "iso1" "setup1" "PDBQT CONTENT" "" [] []
      rfl rfl rfl rfl (by decide)⟩

/-- Claim C4: `download_pdb` is idempotent and side-effect-free after the
first success.  (i) If the cache file exists, the call returns a cache-hit
result with the cached file's size and leaves the state — including the
fetch counter — unchanged: no network call is made.  (ii) From a cold
cache, two calls with the same identifier perform exactly one fetch; the
second call changes nothing and returns the identical path and content
size. -/
theorem claim_C4_download_idempotent (fetch : String → Except String String)
    (cwd : String) (st : DlState) (pdb_id0 : String)
    (hlen : (pyStrip (pyLower pdb_id0)).length = 4) :
    (∀ d, fsGet st.fs ("./pdb/" ++ pyStrip (pyLower pdb_id0) ++ ".pdb") = some d →
      ∃ res, download_pdb fetch cwd st pdb_id0 = (.ok res, st) ∧
        res.file_size = fdSize d) ∧
    (∀ content, fsGet st.fs ("./pdb/" ++ pyStrip (pyLower pdb_id0) ++ ".pdb") = none →
      fetch (pyStrip (pyLower pdb_id0)) = .ok content →
      ∃ r1 r2 st1 st2,
        download_pdb fetch cwd st pdb_id0 = (.ok r1, st1) ∧
        download_pdb fetch cwd st1 pdb_id0 = (.ok r2, st2) ∧
        st1.fetches = st.fetches + 1 ∧ st2 = st1 ∧
        r2.file_size = r1.file_size ∧ r1.file_size = content.length ∧
        r2.file_path = r1.file_path ∧
        fsGet st1.fs ("./pdb/" ++ pyStrip (pyLower pdb_id0) ++ ".pdb") = some (.text content)) := by
  have hcond : ¬((pyStrip (pyLower pdb_id0)).length ≠ 4) := fun h => h hlen
  constructor
  · intro d hd
    simp only [download_pdb, if_neg hcond, hd]
    exact ⟨_, rfl, rfl⟩
  · intro content hna hf
    have e2 : ∃ r2, download_pdb fetch cwd
        (DlState.mk (fsSet st.fs ("./pdb/" ++ pyStrip (pyLower pdb_id0) ++ ".pdb") (.text content)) (st.fetches + 1)) pdb_id0
        = (.ok r2, DlState.mk (fsSet st.fs ("./pdb/" ++ pyStrip (pyLower pdb_id0) ++ ".pdb") (.text content)) (st.fetches + 1)) ∧
        r2.file_size = content.length ∧
        r2.file_path = abspath cwd ("./pdb/" ++ pyStrip (pyLower pdb_id0) ++ ".pdb") := by
      simp only [download_pdb, if_neg hcond, fsGet_fsSet_same]
      exact ⟨_, rfl, rfl, rfl⟩
    have e1 : ∃ r1, download_pdb fetch cwd st pdb_id0
        = (.ok r1, DlState.mk (fsSet st.fs ("./pdb/" ++ pyStrip (pyLower pdb_id0) ++ ".pdb") (.text content)) (st.fetches + 1)) ∧
        r1.file_size = content.length ∧
        r1.file_path = abspath cwd ("./pdb/" ++ pyStrip (pyLower pdb_id0) ++ ".pdb") := by
      simp only [download_pdb, if_neg hcond, hna, hf]
      exact ⟨_, rfl, rfl, rfl⟩
    rcases e1 with ⟨r1, h1, hsz1, hfp1⟩
    rcases e2 with ⟨r2, h2, hsz2, hfp2⟩
    exact ⟨r1, r2, _, _, h1, h2, rfl, rfl, hsz2.trans hsz1.symm, hsz1,
      hfp2.trans hfp1.symm, fsGet_fsSet_same _ _ _⟩

/-- Witness for C4: a concrete fetch function and a cold state. -/
theorem claim_C4_witness :
    (pyStrip (pyLower "1IEP")).length = 4 ∧
    ((∀ d, fsGet (DlState.mk [] 0).fs ("./pdb/" ++ pyStrip (pyLower "1IEP") ++ ".pdb") = some d →
      ∃ res, download_pdb (fun i => if i = "1iep" then .ok "PDB CONTENT" else .error "404")
          "/work" (DlState.mk [] 0) "1IEP" = (.ok res, DlState.mk [] 0) ∧
        res.file_size = fdSize d) ∧
    (∀ content, fsGet (DlState.mk [] 0).fs ("./pdb/" ++ pyStrip (pyLower "1IEP") ++ ".pdb") = none →
      (fun i => if i = "1iep" then Except.ok "PDB CONTENT" else Except.error "404") (pyStrip (pyLower "1IEP")) = .ok content →
      ∃ r1 r2 st1 st2,
        download_pdb (fun i => if i = "1iep" then .ok "PDB CONTENT" else .error "404")
          "/work" (DlState.mk [] 0) "1IEP" = (.ok r1, st1) ∧
        download_pdb (fun i => if i = "1iep" then .ok "PDB CONTENT" else .error "404")
          "/work" st1 "1IEP" = (.ok r2, st2) ∧
        st1.fetches = (DlState.mk [] 0).fetches + 1 ∧ st2 = st1 ∧
        r2.file_size = r1.file_size ∧ r1.file_size = content.length ∧
        r2.file_path = r1.file_path ∧
        fsGet st1.fs ("./pdb/" ++ pyStrip (pyLower "1IEP") ++ ".pdb") = some (.text content))) :=
  ⟨by decide, claim_C4_download_idempotent
    (fun i => if i = "1iep" then .ok "PDB CONTENT" else .error "404")
    "/work" (DlState.mk [] 0) "1IEP" (by decide)⟩

/-- Claim C3: box-center resolution uses exactly one source under strict
short-circuiting priority: a supplied (truthy) 3-component explicit
center is used verbatim even when a box reference is also supplied;
otherwise a supplied reference's centroid over the original unselected
atoms is used; otherwise the receptor-selection centroid.  In
particular, with box_center=[1,2,3] and a box_reference given, the
config record center is exactly (1,2,3). -/
theorem claim_C3_center_priority :
    (∀ (env : Env) (atoms receptor : List Atom) (bc : List ℚ) (br : Option String),
      bc.length = 3 →
      resolveCenter env atoms receptor (some bc) br = .ok bc) ∧
    (∀ (env : Env) (atoms receptor : List Atom) (bc : Option (List ℚ)) (br : String)
      (a : Atom) (rest : List Atom),
      truthyL bc = false → br ≠ "" → env.select atoms br = a :: rest →
      resolveCenter env atoms receptor bc (some br) = .ok (calcCenter (a :: rest))) ∧
    (∀ (env : Env) (atoms receptor : List Atom) (bc : Option (List ℚ)) (br : Option String),
      truthyL bc = false → truthyS br = false →
      resolveCenter env atoms receptor bc br = .ok (calcCenter receptor)) ∧
    (∃ m fsFinal logv,
      prepare_receptor envW [("in.pdb", FileData.text "PDBDATA")] "rec" (some "in.pdb") none
        "chain A and not water and not hetero" (some "resname STI") (some [1, 2, 3]) [20, 20, 20]
        = (Except.ok m, fsFinal, logv) ∧
      fsGet fsFinal "rec_config.txt" = some (.config [1, 2, 3] [20, 20, 20])) := by
  refine ⟨?_, ?_, ?_, ⟨_, _, _, rfl, rfl⟩⟩
  · intro env atoms receptor bc br hlen
    have hne : bc ≠ [] := by
      intro h
      rw [h] at hlen
      exact absurd hlen (by decide)
    have ht : truthyL (some bc) = true := by
      simp [truthyL, hne]
    simp [resolveCenter, ht, hlen]
  · intro env atoms receptor bc br a rest hbc hbr hsel
    have ht : truthyS (some br) = true := by
      cases h : br.isEmpty
      · simp [truthyS, h]
      · exact absurd ((String.isEmpty_iff br).mp h) hbr
    simp [resolveCenter, hbc, ht, hsel]
  · intro env atoms receptor bc br hbc hbr
    simp [resolveCenter, hbc, hbr]

/-- Witness for C3 at concrete inputs: explicit center wins over a
supplied reference; reference centroid; receptor centroid. -/
theorem claim_C3_witness :
    ([(1 : ℚ), 2, 3].length = 3 ∧
      resolveCenter envW atomsW atomsW (some [1, 2, 3]) (some "resname STI") = .ok [1, 2, 3]) ∧
    (truthyL (none : Option (List ℚ)) = false ∧ "resname STI" ≠ "" ∧
      envW.select atomsW "resname STI" = Atom.mk 4 4 4 :: [] ∧
      resolveCenter envW atomsW atomsW none (some "resname STI")
        = .ok (calcCenter (Atom.mk 4 4 4 :: []))) ∧
    (truthyS (none : Option String) = false ∧
      resolveCenter envW atomsW atomsW none none = .ok (calcCenter atomsW)) :=
  ⟨⟨by decide, claim_C3_center_priority.1 envW atomsW atomsW [1, 2, 3] (some "resname STI") (by decide)⟩,
   ⟨rfl, by decide, rfl,
     claim_C3_center_priority.2.1 envW atomsW atomsW none "resname STI" (Atom.mk 4 4 4) []
       rfl (by decide) rfl⟩,
   ⟨rfl, claim_C3_center_priority.2.2.1 envW atomsW atomsW none none rfl rfl⟩⟩

/-- Counterexample to C6: a caller-supplied explicit box center with zero
components (`box_center=[]`) does not fail with an invalid-box-center
condition — Python truthiness treats the empty list as unsupplied, so
the run proceeds with the reference-selection centroid and succeeds. -/
theorem claim_C6_counterexample :
    ∃ m fsFinal logv,
      prepare_receptor envW [("in.pdb", FileData.text "PDBDATA")] "rec" (some "in.pdb") none
        "chain A and not water and not hetero" (some "resname STI") (some []) [20, 20, 20]
        = (Except.ok m, fsFinal, logv) ∧
      fsGet fsFinal "rec_config.txt" = some (.config (calcCenter refAtomsW) [20, 20, 20]) :=
  ⟨_, _, _, rfl, rfl⟩

/-- Claim C6 as amended: a caller-supplied explicit box center that is
nonempty and does not have exactly 3 components makes `prepare_receptor`
fail with the invalid-box-center condition (wrapped by the catch-all
clause); a zero-component (empty) center is treated as unsupplied and
falls through to the next center source. -/
theorem claim_C6_amended (env : Env) (fs0 : FS) (output_name : String)
    (input_pdb pdb_content : Option String) (selection : String)
    (box_reference : Option String) (box_size : List ℚ)
    (l : List ℚ) (hne : l ≠ []) (hlen : l.length ≠ 3)
    (hv : (truthyS input_pdb || truthyS pdb_content) = true)
    (content : String) (atoms : List Atom) (a : Atom) (rest : List Atom)
    (hin : fsGet (resolveInput env fs0 input_pdb pdb_content).2
             (resolveInput env fs0 input_pdb pdb_content).1 = some (.text content))
    (hparse : env.parse content = some atoms)
    (hsel : env.select atoms selection = a :: rest) :
    (prepare_receptor env fs0 output_name input_pdb pdb_content selection
       box_reference (some l) box_size).1
      = .error (.runtimeError "Receptor preparation failed: box_center must have 3 elements [x, y, z]") := by
  have hv' : (!truthyS input_pdb && !truthyS pdb_content) = false := by
    revert hv
    cases truthyS input_pdb <;> cases truthyS pdb_content <;> simp
  have ht : truthyL (some l) = true := by simp [truthyL, hne]
  simp only [prepare_receptor, prepareBody, hv', Bool.false_eq_true, if_false,
    hin, hparse, hsel, resolveCenter, ht, if_true, Option.getD_some]
  simp [hlen, pyMsg]

/-- Witness for the amended C6: `box_center=[1,2]` fails. -/
theorem claim_C6_witness :
    (([(1 : ℚ), 2] ≠ []) ∧ ([(1 : ℚ), 2].length ≠ 3) ∧
      (truthyS (some "in.pdb") || truthyS none) = true ∧
      fsGet (resolveInput envW [("in.pdb", FileData.text "PDBDATA")] (some "in.pdb") none).2
        (resolveInput envW [("in.pdb", FileData.text "PDBDATA")] (some "in.pdb") none).1
        = some (.text "PDBDATA") ∧
      envW.parse "PDBDATA" = some atomsW ∧
      envW.select atomsW "chain A and not water and not hetero" = Atom.mk 1 2 3 :: [Atom.mk 3 4 5]) ∧
    (prepare_receptor envW [("in.pdb", FileData.text "PDBDATA")] "rec" (some "in.pdb") none
       "chain A and not water and not hetero" none (some [1, 2]) [20, 20, 20]).1
      = .error (.runtimeError "Receptor preparation failed: box_center must have 3 elements [x, y, z]") :=
  ⟨⟨by decide, by decide, rfl, rfl, rfl, rfl⟩,
   claim_C6_amended envW [("in.pdb", FileData.text "PDBDATA")] "rec" (some "in.pdb") none
     "chain A and not water and not hetero" none [20, 20, 20] [1, 2] (by decide) (by decide)
     rfl "PDBDATA" atomsW (Atom.mk 1 2 3) [Atom.mk 3 4 5] rfl rfl rfl⟩

/-- Claim C7: an empty receptor selection is fatal, never a degradation:
`prepare_receptor` raises.  The originating condition is a `ValueError`
naming the criterion — the class modelling `EmptySelectionError`,
distinct from the `RuntimeError` class of the catch-all
`PreparationFailed` wrapper, which wraps it carrying its message. -/
theorem claim_C7_empty_selection_fatal (env : Env) (fs0 : FS) (output_name : String)
    (input_pdb pdb_content : Option String) (selection : String)
    (box_reference : Option String) (box_center : Option (List ℚ)) (box_size : List ℚ)
    (hv : (truthyS input_pdb || truthyS pdb_content) = true)
    (content : String) (atoms : List Atom)
    (hin : fsGet (resolveInput env fs0 input_pdb pdb_content).2
             (resolveInput env fs0 input_pdb pdb_content).1 = some (.text content))
    (hparse : env.parse content = some atoms)
    (hsel : env.select atoms selection = []) :
    (prepareBody env fs0 output_name input_pdb pdb_content selection
       box_reference box_center box_size).1
      = .error (.valueError ("Selection '" ++ selection ++ "' matched no atoms.")) ∧
    (prepare_receptor env fs0 output_name input_pdb pdb_content selection
       box_reference box_center box_size).1
      = .error (.runtimeError ("Receptor preparation failed: "
          ++ ("Selection '" ++ selection ++ "' matched no atoms."))) ∧
    (∀ m, PyErr.valueError ("Selection '" ++ selection ++ "' matched no atoms.")
        ≠ PyErr.runtimeError m) := by
  have hv' : (!truthyS input_pdb && !truthyS pdb_content) = false := by
    revert hv
    cases truthyS input_pdb <;> cases truthyS pdb_content <;> simp
  have hbody : (prepareBody env fs0 output_name input_pdb pdb_content selection
       box_reference box_center box_size).1
      = .error (.valueError ("Selection '" ++ selection ++ "' matched no atoms.")) := by
    simp only [prepareBody, hv', Bool.false_eq_true, if_false, hin, hparse, hsel]
  refine ⟨hbody, ?_, fun m => by simp⟩
  simp only [prepare_receptor, hbody, pyMsg]

/-- Witness for C7: a selection matching nothing at a concrete run. -/
theorem claim_C7_witness :
    ((truthyS (some "in.pdb") || truthyS none) = true ∧
      fsGet (resolveInput envW [("in.pdb", FileData.text "PDBDATA")] (some "in.pdb") none).2
        (resolveInput envW [("in.pdb", FileData.text "PDBDATA")] (some "in.pdb") none).1
        = some (.text "PDBDATA") ∧
      envW.parse "PDBDATA" = some atomsW ∧
      envW.select atomsW "resname NOPE" = []) ∧
    ((prepareBody envW [("in.pdb", FileData.text "PDBDATA")] "rec" (some "in.pdb") none
       "resname NOPE" none none [20, 20, 20]).1
      = .error (.valueError ("Selection '" ++ "resname NOPE" ++ "' matched no atoms.")) ∧
    (prepare_receptor envW [("in.pdb", FileData.text "PDBDATA")] "rec" (some "in.pdb") none
       "resname NOPE" none none [20, 20, 20]).1
      = .error (.runtimeError ("Receptor preparation failed: "
          ++ ("Selection '" ++ "resname NOPE" ++ "' matched no atoms."))) ∧
    (∀ m, PyErr.valueError ("Selection '" ++ "resname NOPE" ++ "' matched no atoms.")
        ≠ PyErr.runtimeError m)) :=
  ⟨⟨rfl, rfl, rfl, rfl⟩,
   claim_C7_empty_selection_fatal envW [("in.pdb", FileData.text "PDBDATA")] "rec"
     (some "in.pdb") none "resname NOPE" none none [20, 20, 20] rfl "PDBDATA" atomsW
     rfl rfl rfl⟩


theorem reduceFinish_temp (fs2 : FS) (i temp o : String) (hne : temp ≠ i) :
    ((reduceFinish fs2 i temp o).1 = false → (reduceFinish fs2 i temp o).2 = fs2) ∧
    ((reduceFinish fs2 i temp o).1 = true → fsGet (reduceFinish fs2 i temp o).2 temp = none) := by
  rcases hfind : [splitextRoot (basename temp) ++ "FH.pdb",
      pathJoin (dirname temp) (splitextRoot (basename temp) ++ "FH.pdb"),
      pathJoin (dirname i) (splitextRoot (basename temp) ++ "FH.pdb")].find?
      (fun c => (fsGet fs2 c).isSome) with _ | found
  · constructor
    · intro _
      simp only [reduceFinish, hfind]
    · intro habs
      simp only [reduceFinish, hfind] at habs
      exact absurd habs (by decide)
  · constructor
    · intro habs
      simp only [reduceFinish, hfind] at habs
      exact absurd habs (by decide)
    · intro _
      simp only [reduceFinish, hfind]
      have hbne : (temp != i) = true := by simp [bne_iff_ne, hne]
      simp only [hbne, Bool.true_and]
      by_cases hs : (fsGet (fsSet (fsDel fs2 found) o ((fsGet fs2 found).getD (.text ""))) temp).isSome
      · simp only [hs, if_true]
        exact fsGet_fsDel_same _ _
      · simp only [hs, Bool.false_eq_true, if_false]
        exact Option.not_isSome_iff_eq_none.mp (by simpa using hs)

theorem reduceFinish_false (fs2 : FS) (i temp o : String)
    (hres : (reduceFinish fs2 i temp o).1 = false) :
    (reduceFinish fs2 i temp o).2 = fs2 := by
  rcases hfind : [splitextRoot (basename temp) ++ "FH.pdb",
      pathJoin (dirname temp) (splitextRoot (basename temp) ++ "FH.pdb"),
      pathJoin (dirname i) (splitextRoot (basename temp) ++ "FH.pdb")].find?
      (fun c => (fsGet fs2 c).isSome) with _ | found
  · simp only [reduceFinish, hfind]
  · simp only [reduceFinish, hfind] at hres
    exact absurd hres (by decide)

theorem _run_reduce2_failed_frame (renv : REnv) (fs : FS) (i o : String)
    (g : Option String) (p : String)
    (hres : (_run_reduce2 renv fs i o g).1 = false)
    (hw : p ∉ renv.writes.map Prod.fst)
    (hp : p ≠ i ++ ".reduce_input.pdb") :
    fsGet (_run_reduce2 renv fs i o g).2 p = fsGet fs p := by
  rcases hfail0 : discoverReduce2 renv with _ | dpath
  · simp [_run_reduce2, hfail0]
  · rcases hget : fsGet fs i with _ | fd
    · simp [_run_reduce2, hfail0, hget]
    · cases fd with
      | config c sz => simp [_run_reduce2, hfail0, hget]
      | boxviz cs => simp [_run_reduce2, hfail0, hget]
      | text s =>
        rcases hrun : renv.runResult with ⟨rc, serr⟩ | _ | m
        · by_cases hrc : rc = 0
          · subst hrc
            by_cases hc : hasCryst1 s
            · simp only [_run_reduce2, hfail0, hget, hrun, hc, if_true, ne_eq,
                not_true_eq_false, if_false, Bool.false_eq_true] at hres ⊢
              rw [reduceFinish_false _ _ _ _ hres]
              exact fsGet_fsSetMany_not_mem _ _ _ hw
            · simp only [_run_reduce2, hfail0, hget, hrun, hc, if_false, ne_eq,
                not_true_eq_false, Bool.false_eq_true] at hres ⊢
              rw [reduceFinish_false _ _ _ _ hres]
              rw [fsGet_fsSetMany_not_mem _ _ _ hw]
              exact fsGet_fsSet_ne _ _ _ _ hp
          · by_cases hc : hasCryst1 s
            · simp only [_run_reduce2, hfail0, hget, hrun, hc, if_true, ne_eq, hrc,
                not_false_eq_true, if_pos]
              exact fsGet_fsSetMany_not_mem _ _ _ hw
            · simp only [_run_reduce2, hfail0, hget, hrun, hc, if_false, ne_eq, hrc,
                not_false_eq_true, if_pos, Bool.false_eq_true]
              rw [fsGet_fsSetMany_not_mem _ _ _ hw]
              exact fsGet_fsSet_ne _ _ _ _ hp
        · by_cases hc : hasCryst1 s
          · simp [_run_reduce2, hfail0, hget, hrun, hc]
          · simp only [_run_reduce2, hfail0, hget, hrun, hc, if_false, Bool.false_eq_true]
            exact fsGet_fsSet_ne _ _ _ _ hp
        · by_cases hc : hasCryst1 s
          · simp [_run_reduce2, hfail0, hget, hrun, hc]
          · simp only [_run_reduce2, hfail0, hget, hrun, hc, if_false, Bool.false_eq_true]
            exact fsGet_fsSet_ne _ _ _ _ hp

/-- Claim C10: when `_run_reduce2` synthesizes a temporary input copy
(the cleaned structure lacks a CRYST1 header, the tool was discovered)
and the tool then fails — non-zero exit, timeout, exception, or no
output file found among the candidate locations — the synthesized copy
`input + ".reduce_input.pdb"` remains on disk; on the success path it is
removed, after the output has been moved to the canonical name. -/
theorem claim_C10_reduce_temp_copy (renv : REnv) (fs : FS) (i o : String)
    (g : Option String) (dpath : String) (inContent : String)
    (hdisc : discoverReduce2 renv = some dpath)
    (hin : fsGet fs i = some (.text inContent))
    (hnoc : hasCryst1 inContent = false) :
    ((_run_reduce2 renv fs i o g).1 = false →
      (fsGet (_run_reduce2 renv fs i o g).2 (i ++ ".reduce_input.pdb")).isSome = true) ∧
    ((_run_reduce2 renv fs i o g).1 = true →
      fsGet (_run_reduce2 renv fs i o g).2 (i ++ ".reduce_input.pdb") = none) := by
  have htemp_ne : i ++ ".reduce_input.pdb" ≠ i := string_ne_append_self (by decide)
  have hsynth : ∀ fsx : FS, fsGet (fsSetMany (fsSet fs (i ++ ".reduce_input.pdb")
      (.text ((reduceCryst1Line fs g).getD dummyCryst1 ++ "\n" ++ inContent))) renv.writes)
      (i ++ ".reduce_input.pdb")
      = optOr (fsGet (fsSetMany ([] : FS) renv.writes) (i ++ ".reduce_input.pdb"))
          (some (.text ((reduceCryst1Line fs g).getD dummyCryst1 ++ "\n" ++ inContent))) := by
    intro _
    rw [fsGet_fsSetMany, fsGet_fsSet_same]
  rcases hrun : renv.runResult with ⟨rc, serr⟩ | _ | m
  · by_cases hrc : rc = 0
    · subst hrc
      constructor
      · intro hfalse
        simp only [_run_reduce2, hdisc, hin, hnoc, hrun, Bool.false_eq_true, if_false,
          ne_eq, not_true_eq_false, if_true] at hfalse ⊢
        rw [(reduceFinish_temp _ _ _ _ htemp_ne).1 hfalse, hsynth fs]
        cases fsGet (fsSetMany ([] : FS) renv.writes) (i ++ ".reduce_input.pdb") <;> rfl
      · intro htrue
        simp only [_run_reduce2, hdisc, hin, hnoc, hrun, Bool.false_eq_true, if_false,
          ne_eq, not_true_eq_false, if_true] at htrue ⊢
        exact (reduceFinish_temp _ _ _ _ htemp_ne).2 htrue
    · constructor
      · intro _
        simp only [_run_reduce2, hdisc, hin, hnoc, hrun, Bool.false_eq_true, if_false,
          ne_eq, hrc, not_false_eq_true, if_pos]
        rw [hsynth fs]
        cases fsGet (fsSetMany ([] : FS) renv.writes) (i ++ ".reduce_input.pdb") <;> rfl
      · intro habs
        simp only [_run_reduce2, hdisc, hin, hnoc, hrun, Bool.false_eq_true, if_false,
          ne_eq, hrc, not_false_eq_true, if_pos] at habs
  · constructor
    · intro _
      simp only [_run_reduce2, hdisc, hin, hnoc, hrun, Bool.false_eq_true, if_false]
      rw [fsGet_fsSet_same]
      rfl
    · intro habs
      simp only [_run_reduce2, hdisc, hin, hnoc, hrun, Bool.false_eq_true, if_false] at habs
  · constructor
    · intro _
      simp only [_run_reduce2, hdisc, hin, hnoc, hrun, Bool.false_eq_true, if_false]
      rw [fsGet_fsSet_same]
      rfl
    · intro habs
      simp only [_run_reduce2, hdisc, hin, hnoc, hrun, Bool.false_eq_true, if_false] at habs


/-- Witness for C10 at a concrete input without a CRYST1 record. -/
theorem claim_C10_witness :
    (discoverReduce2 reduce2FoundFailing = some "/usr/bin/mmtbx.reduce2" ∧
      fsGet [("rec_clean.pdb", FileData.text "ATOMDATA")] "rec_clean.pdb"
        = some (.text "ATOMDATA") ∧
      hasCryst1 "ATOMDATA" = false) ∧
    (((_run_reduce2 reduce2FoundFailing [("rec_clean.pdb", FileData.text "ATOMDATA")]
        "rec_clean.pdb" "rec_protonated.pdb" (some "orig.pdb")).1 = false →
      (fsGet (_run_reduce2 reduce2FoundFailing [("rec_clean.pdb", FileData.text "ATOMDATA")]
        "rec_clean.pdb" "rec_protonated.pdb" (some "orig.pdb")).2
        ("rec_clean.pdb" ++ ".reduce_input.pdb")).isSome = true) ∧
     ((_run_reduce2 reduce2FoundFailing [("rec_clean.pdb", FileData.text "ATOMDATA")]
        "rec_clean.pdb" "rec_protonated.pdb" (some "orig.pdb")).1 = true →
      fsGet (_run_reduce2 reduce2FoundFailing [("rec_clean.pdb", FileData.text "ATOMDATA")]
        "rec_clean.pdb" "rec_protonated.pdb" (some "orig.pdb")).2
        ("rec_clean.pdb" ++ ".reduce_input.pdb") = none)) :=
  ⟨⟨rfl, rfl, by decide⟩,
   claim_C10_reduce_temp_copy reduce2FoundFailing
     [("rec_clean.pdb", FileData.text "ATOMDATA")] "rec_clean.pdb" "rec_protonated.pdb"
     (some "orig.pdb") "/usr/bin/mmtbx.reduce2" "ATOMDATA" rfl rfl (by decide)⟩

theorem optOr_none (x : Option FileData) : optOr x none = x := by
  cases x <;> rfl

theorem pipelineTail_reduce2_failed (env : Env) (fs : FS) (receptor : List Atom)
    (center : List ℚ) (output_name pdb_to_parse : String) (box_size : List ℚ)
    (hfailRun : (_run_reduce2 env.reduce2
        (fsSet fs (output_name ++ "_clean.pdb") (.text (env.serialize receptor)))
        (output_name ++ "_clean.pdb") (output_name ++ "_protonated.pdb")
        (some pdb_to_parse)).1 = false)
    (hcleanR : (output_name ++ "_clean.pdb") ∉ env.reduce2.writes.map Prod.fst)
    (houtR : (output_name ++ ".pdbqt") ∉ env.reduce2.writes.map Prod.fst)
    (hcleanM : ∀ c ctr sz, (output_name ++ "_clean.pdb") ∉ ((env.mkRun c ctr sz).2).map Prod.fst)
    (hout0 : fsGet fs (output_name ++ ".pdbqt") = none) :
    (("Protonation: Skipped (reduce2 not available)").data
        <:+: (pipelineTail env fs receptor center output_name pdb_to_parse box_size).1.data) ∧
    ((fsGet (pipelineTail env fs receptor center output_name pdb_to_parse box_size).2.1
        (output_name ++ ".pdbqt") = some (.text (env.serialize receptor))) ∨
     (∃ rc serr writes,
        env.mkRun (env.serialize receptor) center box_size = (.completed rc serr, writes) ∧
        rc = 0 ∧
        fsGet (pipelineTail env fs receptor center output_name pdb_to_parse box_size).2.1
            (output_name ++ ".pdbqt")
          = fsGet (fsSetMany ([] : FS) writes) (output_name ++ ".pdbqt") ∧
        (fsGet (fsSetMany ([] : FS) writes) (output_name ++ ".pdbqt")).isSome = true)) := by
  have hne_out_clean : (output_name ++ ".pdbqt") ≠ output_name ++ "_clean.pdb" :=
    string_append_ne_of_suffix_ne (by decide)
  have hne_out_config : (output_name ++ ".pdbqt") ≠ output_name ++ "_config.txt" :=
    string_append_ne_of_suffix_ne (by decide)
  have hne_out_box : (output_name ++ ".pdbqt") ≠ output_name ++ ".box.pdb" :=
    string_append_ne_of_suffix_ne (by decide)
  have hne_out_temp : (output_name ++ ".pdbqt") ≠ (output_name ++ "_clean.pdb") ++ ".reduce_input.pdb" := by
    rw [string_append_assoc]
    exact string_append_ne_of_suffix_ne (by decide)
  have hne_clean_temp : (output_name ++ "_clean.pdb") ≠ (output_name ++ "_clean.pdb") ++ ".reduce_input.pdb" :=
    (string_ne_append_self (by decide)).symm
  have hr1 := hfailRun
  have hr2out := _run_reduce2_failed_frame env.reduce2
    (fsSet fs (output_name ++ "_clean.pdb") (.text (env.serialize receptor)))
    (output_name ++ "_clean.pdb") (output_name ++ "_protonated.pdb") (some pdb_to_parse)
    (output_name ++ ".pdbqt") hfailRun houtR hne_out_temp
  have hr2clean := _run_reduce2_failed_frame env.reduce2
    (fsSet fs (output_name ++ "_clean.pdb") (.text (env.serialize receptor)))
    (output_name ++ "_clean.pdb") (output_name ++ "_protonated.pdb") (some pdb_to_parse)
    (output_name ++ "_clean.pdb") hfailRun hcleanR hne_clean_temp
  rw [fsGet_fsSet_ne _ _ _ _ hne_out_clean, hout0] at hr2out
  rw [fsGet_fsSet_same] at hr2clean
  have hmem : "Protonation: Skipped (reduce2 not available)" ∈
      (["Receptor prepared.",
        "Clean PDB: " ++ abspath env.cwd (output_name ++ "_clean.pdb")]
       ++ ["Protonation: Skipped (reduce2 not available)"]
       ++ ["PDBQT: " ++ abspath env.cwd (output_name ++ ".pdbqt"),
           "Box Config: " ++ abspath env.cwd (output_name ++ "_config.txt"),
           "Box Visualization: " ++ abspath env.cwd (output_name ++ ".box.pdb"),
           "Box Center: " ++ pyListRepr center,
           "Box Size: " ++ pyListRepr box_size]) := by simp
  refine ⟨?_, ?_⟩
  · simp only [pipelineTail, hr1, Bool.false_eq_true, if_false]
    exact joinLines_infix hmem
  · rcases hmk : env.mkWhich with _ | mkp
    · left
      simp only [pipelineTail, hr1, if_false, Bool.false_eq_true, conversionWithFallback, hmk]
      rw [fsGet_fsSet_ne _ _ _ _ hne_out_box, fsGet_fsSet_ne _ _ _ _ hne_out_config,
        hr2clean, fsGet_fsSet_same]
      rfl
    · simp only [pipelineTail, hr1, if_false, Bool.false_eq_true, conversionWithFallback, hmk,
        hr2clean]
      rcases hmr : env.mkRun (env.serialize receptor) center box_size with ⟨outc, writes⟩
      rcases outc with ⟨rc, serr⟩ | _ | m
      · dsimp only
        by_cases hsucc : rc = 0 ∧ (fsGet (fsSetMany
            (_run_reduce2 env.reduce2 (fsSet fs (output_name ++ "_clean.pdb")
              (.text (env.serialize receptor))) (output_name ++ "_clean.pdb")
              (output_name ++ "_protonated.pdb") (some pdb_to_parse)).2 writes)
            (output_name ++ ".pdbqt")).isSome = true
        · right
          have hw : fsGet (fsSetMany
              (_run_reduce2 env.reduce2 (fsSet fs (output_name ++ "_clean.pdb")
                (.text (env.serialize receptor))) (output_name ++ "_clean.pdb")
                (output_name ++ "_protonated.pdb") (some pdb_to_parse)).2 writes)
              (output_name ++ ".pdbqt")
              = fsGet (fsSetMany ([] : FS) writes) (output_name ++ ".pdbqt") := by
            rw [fsGet_fsSetMany, hr2out, optOr_none]
          refine ⟨rc, serr, writes, rfl, hsucc.1, ?_, ?_⟩
          · rw [if_pos hsucc]
            rw [fsGet_fsSet_ne _ _ _ _ hne_out_box, fsGet_fsSet_ne _ _ _ _ hne_out_config]
            exact hw
          · rw [← hw]
            exact hsucc.2
        · left
          rw [if_neg hsucc]
          rw [fsGet_fsSet_ne _ _ _ _ hne_out_box, fsGet_fsSet_ne _ _ _ _ hne_out_config,
            fsGet_fsSet_same]
          have hkeep := hcleanM (env.serialize receptor) center box_size
          rw [hmr] at hkeep
          have hcl : fsGet (fsSetMany
              (_run_reduce2 env.reduce2 (fsSet fs (output_name ++ "_clean.pdb")
                (.text (env.serialize receptor))) (output_name ++ "_clean.pdb")
                (output_name ++ "_protonated.pdb") (some pdb_to_parse)).2 writes)
              (output_name ++ "_clean.pdb") = some (.text (env.serialize receptor)) := by
            rw [fsGet_fsSetMany_not_mem _ _ _ hkeep]
            exact hr2clean
          rw [hcl]
          rfl
      · left
        dsimp only
        rw [fsGet_fsSet_ne _ _ _ _ hne_out_box, fsGet_fsSet_ne _ _ _ _ hne_out_config,
          hr2clean, fsGet_fsSet_same]
        rfl
      · left
        dsimp only
        rw [fsGet_fsSet_ne _ _ _ _ hne_out_box, fsGet_fsSet_ne _ _ _ _ hne_out_config,
          hr2clean, fsGet_fsSet_same]
        rfl

/-- Claim C1: for every receptor preparation run in which the
hydrogen-addition tool is undiscoverable or fails — `reduce2AlwaysFails`
covers undiscoverable / timeout / exception / non-zero exit, and the
right disjunct covers any other stage failure such as the tool's output
file not being found — and the rest of the run is otherwise viable
(input readable, parse and selection succeed, center resolves; the
frame hypotheses say the failing tools do not scribble over the
pipeline's own files and the output name is fresh), `prepare_receptor`
still returns a success report whose text contains
"Protonation: Skipped (reduce2 not available)", and the final `.pdbqt`
file is derived from the cleaned structure: it is byte-identical to the
clean serialization (fallback copy), or it is exactly what the
converter wrote when invoked on the clean content.  Protonation
unavailability is never surfaced as an error. -/
theorem claim_C1_protonation_degradation (env : Env) (fs0 : FS) (output_name : String)
    (input_pdb pdb_content : Option String) (selection : String)
    (box_reference : Option String) (box_center : Option (List ℚ)) (box_size : List ℚ)
    (content : String) (atoms : List Atom) (a : Atom) (rest : List Atom) (center : List ℚ)
    (hv : (truthyS input_pdb || truthyS pdb_content) = true)
    (hin : fsGet (resolveInput env fs0 input_pdb pdb_content).2
             (resolveInput env fs0 input_pdb pdb_content).1 = some (.text content))
    (hparse : env.parse content = some atoms)
    (hsel : env.select atoms selection = a :: rest)
    (hcen : resolveCenter env atoms (a :: rest) box_center box_reference = .ok center)
    (hfail : reduce2AlwaysFails env.reduce2 ∨
      (_run_reduce2 env.reduce2
        (fsSet (resolveInput env fs0 input_pdb pdb_content).2 (output_name ++ "_clean.pdb")
          (.text (env.serialize (a :: rest))))
        (output_name ++ "_clean.pdb") (output_name ++ "_protonated.pdb")
        (some (resolveInput env fs0 input_pdb pdb_content).1)).1 = false)
    (hcleanR : (output_name ++ "_clean.pdb") ∉ env.reduce2.writes.map Prod.fst)
    (houtR : (output_name ++ ".pdbqt") ∉ env.reduce2.writes.map Prod.fst)
    (hcleanM : ∀ c ctr sz, (output_name ++ "_clean.pdb") ∉ ((env.mkRun c ctr sz).2).map Prod.fst)
    (hout0 : fsGet (resolveInput env fs0 input_pdb pdb_content).2 (output_name ++ ".pdbqt") = none)
    (htmp : env.tmpName ≠ output_name ++ ".pdbqt") :
    ∃ m, (prepare_receptor env fs0 output_name input_pdb pdb_content selection
            box_reference box_center box_size).1 = Except.ok m ∧
      ("Protonation: Skipped (reduce2 not available)").data <:+: m.data ∧
      ((fsGet (prepare_receptor env fs0 output_name input_pdb pdb_content selection
            box_reference box_center box_size).2.1 (output_name ++ ".pdbqt")
          = some (.text (env.serialize (a :: rest)))) ∨
       (∃ rc serr writes,
          env.mkRun (env.serialize (a :: rest)) center box_size = (.completed rc serr, writes) ∧
          rc = 0 ∧
          fsGet (prepare_receptor env fs0 output_name input_pdb pdb_content selection
              box_reference box_center box_size).2.1 (output_name ++ ".pdbqt")
            = fsGet (fsSetMany ([] : FS) writes) (output_name ++ ".pdbqt") ∧
          (fsGet (fsSetMany ([] : FS) writes) (output_name ++ ".pdbqt")).isSome = true)) := by
  have hv' : (!truthyS input_pdb && !truthyS pdb_content) = false := by
    revert hv
    cases truthyS input_pdb <;> cases truthyS pdb_content <;> simp
  have hne_out_temp : (output_name ++ ".pdbqt") ≠ (output_name ++ "_clean.pdb") ++ ".reduce_input.pdb" := by
    rw [string_append_assoc]
    exact string_append_ne_of_suffix_ne (by decide)
  have hfailRun : (_run_reduce2 env.reduce2
      (fsSet (resolveInput env fs0 input_pdb pdb_content).2 (output_name ++ "_clean.pdb")
        (.text (env.serialize (a :: rest))))
      (output_name ++ "_clean.pdb") (output_name ++ "_protonated.pdb")
      (some (resolveInput env fs0 input_pdb pdb_content).1)).1 = false := by
    rcases hfail with h | h
    · exact (_run_reduce2_fail_frame env.reduce2
        (fsSet (resolveInput env fs0 input_pdb pdb_content).2 (output_name ++ "_clean.pdb")
          (.text (env.serialize (a :: rest))))
        (output_name ++ "_clean.pdb") (output_name ++ "_protonated.pdb")
        (some (resolveInput env fs0 input_pdb pdb_content).1)
        (output_name ++ ".pdbqt") h houtR hne_out_temp).1
    · exact h
  have hpt := pipelineTail_reduce2_failed env (resolveInput env fs0 input_pdb pdb_content).2
    (a :: rest) center output_name (resolveInput env fs0 input_pdb pdb_content).1 box_size
    hfailRun hcleanR houtR hcleanM hout0
  have hbody : prepareBody env fs0 output_name input_pdb pdb_content selection
      box_reference box_center box_size =
      (Except.ok (pipelineTail env (resolveInput env fs0 input_pdb pdb_content).2
          (a :: rest) center output_name (resolveInput env fs0 input_pdb pdb_content).1 box_size).1,
       (pipelineTail env (resolveInput env fs0 input_pdb pdb_content).2
          (a :: rest) center output_name (resolveInput env fs0 input_pdb pdb_content).1 box_size).2.1,
       (pipelineTail env (resolveInput env fs0 input_pdb pdb_content).2
          (a :: rest) center output_name (resolveInput env fs0 input_pdb pdb_content).1 box_size).2.2) := by
    simp only [prepareBody, hv', Bool.false_eq_true, if_false, hin, hparse, hsel, hcen]
  have hfs : fsGet (prepare_receptor env fs0 output_name input_pdb pdb_content selection
      box_reference box_center box_size).2.1 (output_name ++ ".pdbqt")
      = fsGet (pipelineTail env (resolveInput env fs0 input_pdb pdb_content).2
          (a :: rest) center output_name (resolveInput env fs0 input_pdb pdb_content).1 box_size).2.1
        (output_name ++ ".pdbqt") := by
    simp only [prepare_receptor, hbody]
    cases hc : truthyS pdb_content
    · simp only [Bool.false_eq_true, if_false]
    · simp only [if_true]
      exact fsGet_fsDel_ne _ _ _ (fun e => htmp e.symm)
  refine ⟨_, ?_, hpt.1, ?_⟩
  · simp only [prepare_receptor, hbody]
  · rcases hpt.2 with hL | ⟨rc, serr, writes, hmr, hrc, heq, hsome⟩
    · left
      rw [hfs]
      exact hL
    · right
      exact ⟨rc, serr, writes, hmr, hrc, by rw [hfs]; exact heq, hsome⟩

/-- Witness for C1: a concrete run with reduce2 undiscoverable and the
converter absent. -/
theorem claim_C1_witness :
    ((truthyS (some "in.pdb") || truthyS none) = true ∧
     fsGet (resolveInput envW [("in.pdb", FileData.text "PDBDATA")] (some "in.pdb") none).2
       (resolveInput envW [("in.pdb", FileData.text "PDBDATA")] (some "in.pdb") none).1
       = some (.text "PDBDATA") ∧
     envW.parse "PDBDATA" = some atomsW ∧
     envW.select atomsW "chain A and not water and not hetero" = Atom.mk 1 2 3 :: [Atom.mk 3 4 5] ∧
     resolveCenter envW atomsW (Atom.mk 1 2 3 :: [Atom.mk 3 4 5]) (some [1, 2, 3]) none
       = .ok [1, 2, 3] ∧
     (reduce2AlwaysFails envW.reduce2 ∨
       (_run_reduce2 envW.reduce2
         (fsSet (resolveInput envW [("in.pdb", FileData.text "PDBDATA")] (some "in.pdb") none).2
           ("rec" ++ "_clean.pdb") (.text (envW.serialize (Atom.mk 1 2 3 :: [Atom.mk 3 4 5]))))
         ("rec" ++ "_clean.pdb") ("rec" ++ "_protonated.pdb")
         (some (resolveInput envW [("in.pdb", FileData.text "PDBDATA")] (some "in.pdb") none).1)).1
         = false) ∧
     ("rec" ++ "_clean.pdb") ∉ envW.reduce2.writes.map Prod.fst ∧
     ("rec" ++ ".pdbqt") ∉ envW.reduce2.writes.map Prod.fst ∧
     (∀ c ctr sz, ("rec" ++ "_clean.pdb") ∉ ((envW.mkRun c ctr sz).2).map Prod.fst) ∧
     fsGet (resolveInput envW [("in.pdb", FileData.text "PDBDATA")] (some "in.pdb") none).2
       ("rec" ++ ".pdbqt") = none ∧
     envW.tmpName ≠ "rec" ++ ".pdbqt") ∧
    (∃ m, (prepare_receptor envW [("in.pdb", FileData.text "PDBDATA")] "rec" (some "in.pdb") none
            "chain A and not water and not hetero" none (some [1, 2, 3]) [20, 20, 20]).1
          = Except.ok m ∧
      ("Protonation: Skipped (reduce2 not available)").data <:+: m.data ∧
      ((fsGet (prepare_receptor envW [("in.pdb", FileData.text "PDBDATA")] "rec" (some "in.pdb") none
            "chain A and not water and not hetero" none (some [1, 2, 3]) [20, 20, 20]).2.1
            ("rec" ++ ".pdbqt")
          = some (.text (envW.serialize (Atom.mk 1 2 3 :: [Atom.mk 3 4 5])))) ∨
       (∃ rc serr writes,
          envW.mkRun (envW.serialize (Atom.mk 1 2 3 :: [Atom.mk 3 4 5])) [1, 2, 3] [20, 20, 20]
            = (.completed rc serr, writes) ∧
          rc = 0 ∧
          fsGet (prepare_receptor envW [("in.pdb", FileData.text "PDBDATA")] "rec" (some "in.pdb") none
              "chain A and not water and not hetero" none (some [1, 2, 3]) [20, 20, 20]).2.1
              ("rec" ++ ".pdbqt")
            = fsGet (fsSetMany ([] : FS) writes) ("rec" ++ ".pdbqt") ∧
          (fsGet (fsSetMany ([] : FS) writes) ("rec" ++ ".pdbqt")).isSome = true))) :=
  ⟨⟨rfl, rfl, rfl, rfl, rfl, Or.inl (Or.inl rfl), by simp [envW, reduce2Missing],
    by simp [envW, reduce2Missing], fun c ctr sz => by simp [envW], rfl, by decide⟩,
   claim_C1_protonation_degradation envW [("in.pdb", FileData.text "PDBDATA")] "rec"
     (some "in.pdb") none "chain A and not water and not hetero" none (some [1, 2, 3])
     [20, 20, 20] "PDBDATA" atomsW (Atom.mk 1 2 3) [Atom.mk 3 4 5] [1, 2, 3]
     rfl rfl rfl rfl rfl (Or.inl (Or.inl rfl)) (by simp [envW, reduce2Missing])
     (by simp [envW, reduce2Missing]) (fun c ctr sz => by simp [envW]) rfl (by decide)⟩

set_option maxRecDepth 8192 in
/-- Counterexample to C2: at a concrete run where the converter is
discovered but exits non-zero, the fallback copy is made (the final
`.pdbqt` is byte-identical to the clean structure), yet the returned
report text does not flag the missing partial-charge annotation: it
contains no occurrence of "harge" (so neither "charges" nor "Charges").
The flag goes only to the log. -/
theorem claim_C2_counterexample :
    ∃ m fsFinal logv,
      prepare_receptor envC2 [("in.pdb", FileData.text "PDBDATA")] "rec" (some "in.pdb") none
          "chain A and not water and not hetero" none (some [1, 2, 3]) [20, 20, 20]
        = (Except.ok m, fsFinal, logv) ∧
      fsGet fsFinal "rec.pdbqt" = some (.text "CLEANPDB") ∧
      ¬ (("harge").data <:+: m.data) :=
  ⟨_, _, _, rfl, rfl, by decide⟩

/-- Claim C2 as amended: format-conversion success is exactly zero exit
status AND the expected output file existing after the tool's writes;
on failure or converter absence the stage falls back so that the final
docking-format file is byte-identical to the protonated-or-clean input,
and the missing partial-charge annotation is flagged in the program log
(not in the returned report text). -/
theorem claim_C2_conversion_fallback (env : Env) (fs : FS) (reduce2_success : Bool)
    (inPath outP : String) (center size : List ℚ) (inContent : String)
    (hin : fsGet fs inPath = some (.text inContent))
    (hinw : ∀ c ctr sz, inPath ∉ ((env.mkRun c ctr sz).2).map Prod.fst) :
    ((conversionWithFallback env fs reduce2_success inPath outP center size).1 = true ↔
      (∃ p rc serr writes, env.mkWhich = some p ∧
        env.mkRun inContent center size = (.completed rc serr, writes) ∧ rc = 0 ∧
        (fsGet (fsSetMany fs writes) outP).isSome = true)) ∧
    ((conversionWithFallback env fs reduce2_success inPath outP center size).1 = false →
      fsGet (conversionWithFallback env fs reduce2_success inPath outP center size).2.1 outP
        = some (.text inContent)) ∧
    ((conversionWithFallback env fs reduce2_success inPath outP center size).1 = false →
      ∃ line ∈ (conversionWithFallback env fs reduce2_success inPath outP center size).2.2,
        ("artial charges").data <:+: line.data) := by
  have hflag : ∀ b : Bool, ("artial charges").data <:+:
      ((if b then "Created PDBQT from protonated structure. Note: Partial charges not assigned (mk_prepare_receptor not available)."
        else "Created basic PDBQT without hydrogens or partial charges. For production use, install cctbx (for reduce2) and meeko (for mk_prepare_receptor).") : String).data := by
    intro b
    cases b
    · decide
    · decide
  rcases hmk : env.mkWhich with _ | mkp
  · refine ⟨?_, ?_, ?_⟩
    · simp only [conversionWithFallback, hmk]
      constructor
      · intro habs
        exact absurd habs (by decide)
      · rintro ⟨p, rc, serr, writes, hp, -⟩
        exact Option.noConfusion hp
    · intro _
      simp only [conversionWithFallback, hmk, hin, Option.getD_some]
      rw [fsGet_fsSet_same]
    · intro _
      simp only [conversionWithFallback, hmk]
      exact ⟨_, by simp, hflag reduce2_success⟩
  · simp only [conversionWithFallback, hmk, hin]
    rcases hmr : env.mkRun inContent center size with ⟨outc, writes⟩
    rcases outc with ⟨rc, serr⟩ | _ | m
    · dsimp only
      by_cases hsucc : rc = 0 ∧ (fsGet (fsSetMany fs writes) outP).isSome = true
      · rw [if_pos hsucc]
        refine ⟨?_, ?_, ?_⟩
        · exact iff_of_true rfl ⟨mkp, rc, serr, writes, rfl, rfl, hsucc.1, hsucc.2⟩
        · intro habs
          simp at habs
        · intro habs
          simp at habs
      · rw [if_neg hsucc]
        refine ⟨?_, ?_, ?_⟩
        · refine iff_of_false (fun habs => by simp at habs) ?_
          rintro ⟨p, rc', serr', writes', hp, hmr', hrc', hsome'⟩
          injection hmr' with h1 h2
          injection h1 with hrc2 hserr2
          exact hsucc ⟨hrc2.trans hrc', by rw [h2]; exact hsome'⟩
        · intro _
          have hk := hinw inContent center size
          rw [hmr] at hk
          dsimp only at hk
          rw [fsGet_fsSet_same, fsGet_fsSetMany_not_mem _ _ _ hk, hin, Option.getD_some]
        · intro _
          exact ⟨_, by simp, hflag reduce2_success⟩
    · dsimp only
      refine ⟨?_, ?_, ?_⟩
      · refine iff_of_false (fun habs => by simp at habs) ?_
        rintro ⟨p, rc', serr', writes', hp, hmr', -, -⟩
        injection hmr' with h1 h2
        exact RunOutcome.noConfusion h1
      · intro _
        rw [fsGet_fsSet_same, hin, Option.getD_some]
      · intro _
        exact ⟨_, by simp, hflag reduce2_success⟩
    · dsimp only
      refine ⟨?_, ?_, ?_⟩
      · refine iff_of_false (fun habs => by simp at habs) ?_
        rintro ⟨p, rc', serr', writes', hp, hmr', -, -⟩
        injection hmr' with h1 h2
        exact RunOutcome.noConfusion h1
      · intro _
        rw [fsGet_fsSet_same, hin, Option.getD_some]
      · intro _
        exact ⟨_, by simp, hflag reduce2_success⟩

/-- Witness for the amended C2 at a concrete input (converter discovered,
exits non-zero): fallback copy and log flag. -/
theorem claim_C2_witness :
    (fsGet [("in.pdb", FileData.text "CLEANPDB")] "in.pdb" = some (.text "CLEANPDB") ∧
     (∀ c ctr sz, "in.pdb" ∉ ((envC2.mkRun c ctr sz).2).map Prod.fst)) ∧
    (((conversionWithFallback envC2 [("in.pdb", FileData.text "CLEANPDB")] false
        "in.pdb" "out.pdbqt" [1, 2, 3] [20, 20, 20]).1 = true ↔
      (∃ p rc serr writes, envC2.mkWhich = some p ∧
        envC2.mkRun "CLEANPDB" [1, 2, 3] [20, 20, 20] = (.completed rc serr, writes) ∧ rc = 0 ∧
        (fsGet (fsSetMany [("in.pdb", FileData.text "CLEANPDB")] writes) "out.pdbqt").isSome = true)) ∧
    (((conversionWithFallback envC2 [("in.pdb", FileData.text "CLEANPDB")] false
        "in.pdb" "out.pdbqt" [1, 2, 3] [20, 20, 20]).1 = false →
      fsGet (conversionWithFallback envC2 [("in.pdb", FileData.text "CLEANPDB")] false
        "in.pdb" "out.pdbqt" [1, 2, 3] [20, 20, 20]).2.1 "out.pdbqt"
        = some (.text "CLEANPDB")) ∧
    ((conversionWithFallback envC2 [("in.pdb", FileData.text "CLEANPDB")] false
        "in.pdb" "out.pdbqt" [1, 2, 3] [20, 20, 20]).1 = false →
      ∃ line ∈ (conversionWithFallback envC2 [("in.pdb", FileData.text "CLEANPDB")] false
        "in.pdb" "out.pdbqt" [1, 2, 3] [20, 20, 20]).2.2,
        ("artial charges").data <:+: line.data))) :=
  ⟨⟨rfl, fun c ctr sz => by simp [envC2, envW]⟩,
   claim_C2_conversion_fallback envC2 [("in.pdb", FileData.text "CLEANPDB")] false
     "in.pdb" "out.pdbqt" [1, 2, 3] [20, 20, 20] "CLEANPDB" rfl
     (fun c ctr sz => by simp [envC2, envW])⟩
